import Mathlib

/-
Shallow embedding of the WanderMart mock persistence/query layer: the
service facade functions over the localStorage-backed entity slices.
Each facade function is modelled as a pure function taking the full
`Store` (the five entity slices, i.e. the state of the key-value store
after the default fixtures have been seeded) and returning the response
envelope together with the new store.  The simulated network delay and
the JSON (de)serialization are identity on the data and are dropped.
Timestamps (`Date.now()`, `toISOString()`) enter as explicit parameters.
JavaScript string truthiness (empty string is falsy) is modelled
explicitly wherever the source branches on a possibly-empty string.
-/

namespace WanderMart

/-- JS `s.toLowerCase()`, modelled on the character list of the string. -/
def jsToLower (s : String) : String := ⟨s.data.map Char.toLower⟩

/-- Prefix test on character lists (helper for the JS `includes` test). -/
def charsPrefixOf : List Char → List Char → Bool
  | [], _ => true
  | _ :: _, [] => false
  | a :: as, b :: bs => a == b && charsPrefixOf as bs

/-- Occurrence test on character lists: does `sub` occur inside `s`? -/
def charsContains (s sub : List Char) : Bool :=
  if charsPrefixOf sub s then true
  else
    match s with
    | [] => false
    | _ :: rest => charsContains rest sub

/-- JS `s.includes(sub)`: `sub` is a (contiguous) substring of `s`. -/
def jsIncludes (s sub : String) : Bool := charsContains s.data sub.data

/-- JS `email.split('@')[0]`: the characters before the first `@`. -/
def takeUntilAt : List Char → List Char
  | [] => []
  | c :: rest => if c == '@' then [] else c :: takeUntilAt rest

/-- The part of an email address before the first `@` (the whole string
when it has no `@`), as produced by `email.split('@')[0]` in the source. -/
def emailLocalPart (email : String) : String := ⟨takeUntilAt email.data⟩

/-- JS `v || dflt` for an optional string: falls back when the value is
absent or the empty string (empty strings are falsy in JS). -/
def jsOrString (v : Option String) (dflt : String) : String :=
  match v with
  | some s => if s = "" then dflt else s
  | none => dflt

/-- JS `v || fallback` where the fallback itself is an optional string. -/
def jsOrOpt (v fallback : Option String) : Option String :=
  match v with
  | some s => if s = "" then fallback else some s
  | none => fallback

/-- `UserRole` enum from `types.ts`. -/
inductive UserRole
  | guest
  | traveler
  | merchant
  | admin
deriving DecidableEq, Repr

/-- `User.status` union type from `types.ts`. -/
inductive UserStatus
  | active
  | pending
  | rejected
deriving DecidableEq, Repr

/-- `Post.status` union type from `types.ts`. -/
inductive PostStatus
  | active
  | reported
  | hidden
deriving DecidableEq, Repr

/-- `Order.status` union type from `types.ts`. -/
inductive OrderStatus
  | pending
  | shipped
  | delivered
  | cancelled
deriving DecidableEq, Repr

/-- `User` from `types.ts`. -/
structure User where
  id : String
  username : String
  email : String
  role : UserRole
  token : Option String := none
  status : UserStatus
  qualificationUrl : Option String := none
deriving DecidableEq, Repr

/-- `Attraction` from `types.ts`. -/
structure Attraction where
  id : String
  title : String
  description : String
  address : String
  region : String
  province : Option String := none
  city : Option String := none
  county : Option String := none
  tags : List String
  imageUrl : String
  gallery : Option (List String) := none
  openHours : Option String := none
  drivingTips : Option String := none
deriving DecidableEq, Repr

/-- `Comment` from `types.ts`. -/
structure Comment where
  id : String
  userId : String
  username : String
  content : String
  createdAt : String
deriving DecidableEq, Repr

/-- `Post` from `types.ts`.  The numeric rating is only stored, never
computed with, so it is embedded as a natural number. -/
structure Post where
  id : String
  attractionId : String
  userId : String
  username : String
  content : String
  rating : Option Nat := none
  imageUrl : Option String := none
  likes : Nat
  comments : List Comment
  createdAt : String
  status : PostStatus
deriving DecidableEq, Repr

/-- `Product` from `types.ts`.  Prices are embedded as rationals. -/
structure Product where
  id : String
  merchantId : String
  merchantName : String
  attractionId : Option String := none
  attractionName : Option String := none
  name : String
  description : String
  price : Rat
  stock : Nat
  imageUrl : String
deriving DecidableEq, Repr

/-- `CartItem` from `types.ts`: a product snapshot plus a quantity. -/
structure CartItem extends Product where
  quantity : Nat
deriving DecidableEq, Repr

/-- `Order` from `types.ts`. -/
structure Order where
  id : String
  userId : String
  items : List CartItem
  total : Rat
  status : OrderStatus
  trackingNumber : Option String := none
  createdAt : String
deriving DecidableEq, Repr

/-- `ApiResponse<T>` from `types.ts`: the uniform result envelope. -/
structure ApiResponse (α : Type) where
  success : Bool
  data : Option α := none
  message : Option String := none
deriving DecidableEq, Repr

/-- The five localStorage slices (`mock_users`, `mock_attractions`,
`mock_posts`, `mock_products`, `mock_orders`) after seeding. -/
structure Store where
  users : List User
  attractions : List Attraction
  posts : List Post
  products : List Product
  orders : List Order
deriving DecidableEq, Repr

/-- `login` from `services/api.ts` lines 151-162: find the first user whose
email matches case-insensitively; the password is never inspected and no
slice is written. -/
def login (email _password : String) (s : Store) : ApiResponse User × Store :=
  match s.users.find? (fun u => jsToLower u.email == jsToLower email) with
  | some user =>
      ({ success := true, data := some { user with token := some ("mock-jwt-" ++ user.id) } }, s)
  | none =>
      ({ success := false,
         message := some "Invalid credentials. Try user@test.com, merchant@test.com, or admin@test.com" }, s)

/-- The `Partial<User>` argument of `register`; the email is the one field
the function dereferences unconditionally. -/
structure RegisterData where
  username : Option String := none
  email : String
  role : Option UserRole := none
  qualificationUrl : Option String := none
deriving DecidableEq, Repr

/-- `register` from `services/api.ts` lines 164-187.  The duplicate-email
check uses strict equality (`===`) on the raw email strings.  `now` stands
for `Date.now()`. -/
def register (userData : RegisterData) (_password : String) (now : Nat) (s : Store) :
    ApiResponse User × Store :=
  if s.users.any (fun u => u.email == userData.email) then
    ({ success := false, message := some "Email already exists" }, s)
  else
    let status := if userData.role = some UserRole.merchant then UserStatus.pending
                  else UserStatus.active
    let newUser : User :=
      { id := "u-" ++ toString now,
        username := jsOrString userData.username (emailLocalPart userData.email),
        email := userData.email,
        role := userData.role.getD UserRole.traveler,
        status := status,
        qualificationUrl := userData.qualificationUrl,
        token := some "mock-jwt-new" }
    ({ success := true, data := some newUser }, { s with users := s.users ++ [newUser] })

/-- `updateUserStatus` from `services/api.ts` lines 196-202: map over the
user slice, patching every user with the given id; always succeeds. -/
def updateUserStatus (userId : String) (status : UserStatus) (s : Store) :
    ApiResponse Bool × Store :=
  let updatedUsers := s.users.map (fun u => if u.id == userId then { u with status := status } else u)
  ({ success := true, data := some true }, { s with users := updatedUsers })

/-- `AttractionFilters` from `services/api.ts` lines 206-212. -/
structure AttractionFilters where
  province : Option String := none
  city : Option String := none
  county : Option String := none
  query : Option String := none
  tag : Option String := none
deriving DecidableEq, Repr

/-- One `if (filters.x) data = data.filter(...)` step of `getAttractions`:
the filter is applied only when the optional string is present and truthy
(non-empty). -/
def jsFilterIf (v : Option String) (pred : String → Attraction → Bool)
    (d : List Attraction) : List Attraction :=
  match v with
  | some x => if x = "" then d else d.filter (pred x)
  | none => d

/-- `getAttractions` from `services/api.ts` lines 214-230: serial filters,
exact match on province/city/county, containment on tag, case-insensitive
substring on title or description for the query. -/
def getAttractions (filters : AttractionFilters) (s : Store) :
    ApiResponse (List Attraction) × Store :=
  let d0 := s.attractions
  let d1 := jsFilterIf filters.province (fun p a => a.province == some p) d0
  let d2 := jsFilterIf filters.city (fun c a => a.city == some c) d1
  let d3 := jsFilterIf filters.county (fun c a => a.county == some c) d2
  let d4 := jsFilterIf filters.tag (fun t a => a.tags.contains t) d3
  let d5 := jsFilterIf filters.query
    (fun q a => jsIncludes (jsToLower a.title) (jsToLower q)
      || jsIncludes (jsToLower a.description) (jsToLower q)) d4
  ({ success := true, data := some d5 }, s)

/-- `getAttractionById` from `services/api.ts` lines 232-237. -/
def getAttractionById (id : String) (s : Store) : ApiResponse Attraction × Store :=
  match s.attractions.find? (fun a => a.id == id) with
  | some attraction => ({ success := true, data := some attraction }, s)
  | none => ({ success := false, message := some "Not found" }, s)

/-- The `Partial<Attraction>` argument of `createAttraction`.  The six
fields the source dereferences with `!` (title, description, address,
province, city, county) are mandatory; the rest are optional. -/
structure CreateAttractionData where
  title : String
  description : String
  address : String
  province : String
  city : String
  county : String
  tags : Option (List String) := none
  imageUrl : Option String := none
  gallery : Option (List String) := none
  openHours : Option String := none
  drivingTips : Option String := none
deriving DecidableEq, Repr

/-- `createAttraction` from `services/api.ts` lines 239-259: builds the
record (region is province + space + city, tags/gallery default to `[]`,
imageUrl defaults to a placeholder when absent or empty) and prepends it
to the slice.  `now` stands for `Date.now()`. -/
def createAttraction (attractionData : CreateAttractionData) (now : Nat) (s : Store) :
    ApiResponse Attraction × Store :=
  let newAttraction : Attraction :=
    { id := "attr-" ++ toString now,
      title := attractionData.title,
      description := attractionData.description,
      address := attractionData.address,
      province := some attractionData.province,
      city := some attractionData.city,
      county := some attractionData.county,
      region := attractionData.province ++ " " ++ attractionData.city,
      tags := attractionData.tags.getD [],
      imageUrl := jsOrString attractionData.imageUrl "https://picsum.photos/800/600?random=99",
      gallery := some (attractionData.gallery.getD []),
      openHours := attractionData.openHours,
      drivingTips := attractionData.drivingTips }
  ({ success := true, data := some newAttraction },
   { s with attractions := newAttraction :: s.attractions })

/-- The `Partial<Attraction>` patch of `updateAttraction`: every field
optional; an absent field leaves the stored field unchanged. -/
structure AttractionUpdate where
  id : Option String := none
  title : Option String := none
  description : Option String := none
  address : Option String := none
  region : Option String := none
  province : Option String := none
  city : Option String := none
  county : Option String := none
  tags : Option (List String) := none
  imageUrl : Option String := none
  gallery : Option (List String) := none
  openHours : Option String := none
  drivingTips : Option String := none
deriving DecidableEq, Repr

/-- The object spread `{ ...attractions[index], ...updates }`. -/
def applyAttractionUpdate (a : Attraction) (u : AttractionUpdate) : Attraction :=
  { id := u.id.getD a.id,
    title := u.title.getD a.title,
    description := u.description.getD a.description,
    address := u.address.getD a.address,
    region := u.region.getD a.region,
    province := u.province <|> a.province,
    city := u.city <|> a.city,
    county := u.county <|> a.county,
    tags := u.tags.getD a.tags,
    imageUrl := u.imageUrl.getD a.imageUrl,
    gallery := u.gallery <|> a.gallery,
    openHours := u.openHours <|> a.openHours,
    drivingTips := u.drivingTips <|> a.drivingTips }

/-- The `findIndex` + in-place assignment of `updateAttraction`: patch the
first attraction with the given id, returning it alongside the new slice
(`none` when no attraction has the id). -/
def updateAttractionList (id : String) (u : AttractionUpdate) :
    List Attraction → Option Attraction × List Attraction
  | [] => (none, [])
  | a :: rest =>
    if a.id == id then
      let updated := applyAttractionUpdate a u
      (some updated, updated :: rest)
    else
      let (r, rest') := updateAttractionList id u rest
      (r, a :: rest')

/-- `updateAttraction` from `services/api.ts` lines 261-271: not-found ids
fail with a message before any write; otherwise the patched slice is
written back. -/
def updateAttraction (id : String) (updates : AttractionUpdate) (s : Store) :
    ApiResponse Attraction × Store :=
  match updateAttractionList id updates s.attractions with
  | (none, _) => ({ success := false, message := some "Attraction not found" }, s)
  | (some updatedAttraction, attractions') =>
      ({ success := true, data := some updatedAttraction },
       { s with attractions := attractions' })

/-- `deleteAttraction` from `services/api.ts` lines 273-279: filter the id
out of the slice and report success unconditionally. -/
def deleteAttraction (id : String) (s : Store) : ApiResponse Bool × Store :=
  ({ success := true, data := some true },
   { s with attractions := s.attractions.filter (fun a => a.id != id) })

/-- `getPosts` from `services/api.ts` lines 284-294: only posts with status
`active` are visible, optionally narrowed to one attraction (the truthy
check on `attractionId` skips the narrowing for an empty id). -/
def getPosts (attractionId : Option String) (s : Store) : ApiResponse (List Post) × Store :=
  let visiblePosts := s.posts.filter (fun p => p.status == PostStatus.active)
  let filtered :=
    match attractionId with
    | some aid => if aid = "" then visiblePosts
                  else visiblePosts.filter (fun p => p.attractionId == aid)
    | none => visiblePosts
  ({ success := true, data := some filtered }, s)

/-- `reportPost` from `services/api.ts` lines 316-323: map over the slice
setting the status of every post with the id to `reported`; always
succeeds. -/
def reportPost (postId : String) (s : Store) : ApiResponse Bool × Store :=
  let updated := s.posts.map (fun p => if p.id == postId then { p with status := PostStatus.reported } else p)
  ({ success := true, data := some true }, { s with posts := updated })

/-- `getReportedContent` from `services/api.ts` lines 420-425: the posts
with status `reported`. -/
def getReportedContent (s : Store) : ApiResponse (List Post) × Store :=
  ({ success := true, data := some (s.posts.filter (fun p => p.status == PostStatus.reported)) }, s)

/-- The `Partial<Product>` argument of `createProduct`; the fields the
source dereferences with `!` are mandatory. -/
structure CreateProductData where
  merchantId : String
  merchantName : Option String := none
  attractionId : Option String := none
  name : String
  description : String
  price : Rat
  stock : Nat
  imageUrl : Option String := none
deriving DecidableEq, Repr

/-- `createProduct` from `services/api.ts` lines 344-370: resolves the
denormalized attraction title from the attraction slice at creation time
(when a truthy attraction id is given) and appends the new product.
`now` stands for `Date.now()`. -/
def createProduct (product : CreateProductData) (now : Nat) (s : Store) :
    ApiResponse Product × Store :=
  let attractionName :=
    match product.attractionId with
    | some aid =>
        if aid = "" then none
        else
          match s.attractions.find? (fun a => a.id == aid) with
          | some attr => some attr.title
          | none => none
    | none => none
  let newProduct : Product :=
    { id := "prod-" ++ toString now,
      merchantId := product.merchantId,
      merchantName := jsOrString product.merchantName "My Store",
      attractionId := product.attractionId,
      attractionName := attractionName,
      name := product.name,
      description := product.description,
      price := product.price,
      stock := product.stock,
      imageUrl := jsOrString product.imageUrl ("https://picsum.photos/400/400?random=" ++ toString now) }
  ({ success := true, data := some newProduct }, { s with products := s.products ++ [newProduct] })

/-- The per-order patch of `updateOrderStatus`:
`{ ...o, status, trackingNumber: trackingNumber || o.trackingNumber }`. -/
def applyOrderUpdate (status : OrderStatus) (trackingNumber : Option String) (o : Order) : Order :=
  { o with status := status, trackingNumber := jsOrOpt trackingNumber o.trackingNumber }

/-- The `map` loop of `updateOrderStatus`: patch every order with the id;
the captured `updatedOrder` is the last match (`none` when there is no
match). -/
def updateOrderList (orderId : String) (status : OrderStatus) (trackingNumber : Option String) :
    List Order → Option Order × List Order
  | [] => (none, [])
  | o :: rest =>
    if o.id == orderId then
      let uo := applyOrderUpdate status trackingNumber o
      let (r, rest') := updateOrderList orderId status trackingNumber rest
      (some (r.getD uo), uo :: rest')
    else
      let (r, rest') := updateOrderList orderId status trackingNumber rest
      (r, o :: rest')

/-- `updateOrderStatus` from `services/api.ts` lines 399-416: not-found ids
fail with a message before any write; otherwise the patched slice is
written back and the patched order returned. -/
def updateOrderStatus (orderId : String) (status : OrderStatus) (trackingNumber : Option String)
    (s : Store) : ApiResponse Order × Store :=
  match updateOrderList orderId status trackingNumber s.orders with
  | (none, _) => ({ success := false, message := some "Order not found" }, s)
  | (some updatedOrder, orders') =>
      ({ success := true, data := some updatedOrder }, { s with orders := orders' })

/-- The filter semantics as the specification words them: the conjunction
of exact matches on province/city/county, membership of the tag in the tag
list, and case-insensitive substring of the query in the title or the
description. -/
def attractionMatchesSpec (filters : AttractionFilters) (a : Attraction) : Bool :=
  (match filters.province with | some p => a.province == some p | none => true)
  && (match filters.city with | some c => a.city == some c | none => true)
  && (match filters.county with | some c => a.county == some c | none => true)
  && (match filters.tag with | some t => a.tags.contains t | none => true)
  && (match filters.query with
      | some q => jsIncludes (jsToLower a.title) (jsToLower q)
          || jsIncludes (jsToLower a.description) (jsToLower q)
      | none => true)

/-- The `INITIAL_USERS` fixture seeded into the `mock_users` slice. -/
def INITIAL_USERS : List User :=
  [{ id := "admin1", username := "Admin User", email := "admin@test.com",
     role := UserRole.admin, status := UserStatus.active },
   { id := "m1", username := "Merchant User", email := "merchant@test.com",
     role := UserRole.merchant, status := UserStatus.active,
     qualificationUrl := some "https://picsum.photos/200/300" },
   { id := "u1", username := "Traveler User", email := "user@test.com",
     role := UserRole.traveler, status := UserStatus.active }]

/-- A store in which every slice is empty. -/
def emptyStore : Store :=
  { users := [], attractions := [], posts := [], products := [], orders := [] }

/-- A small concrete attraction used to evaluate the theorems. -/
def sampleAttraction : Attraction :=
  { id := "a1", title := "Panda Base", description := "Pandas live here",
    address := "1 Panda Rd", region := "SC CD", province := some "SC",
    city := some "CD", county := some "CH", tags := ["Nature"], imageUrl := "img" }

/-- A concrete post with status `active`. -/
def sampleActivePost : Post :=
  { id := "post-1", attractionId := "a1", userId := "u1", username := "Traveler User",
    content := "nice", likes := 0, comments := [], createdAt := "2024-01-01",
    status := PostStatus.active }

/-- A concrete post with status `reported`. -/
def sampleReportedPost : Post :=
  { id := "post-2", attractionId := "a1", userId := "u1", username := "Traveler User",
    content := "spam", likes := 0, comments := [], createdAt := "2024-01-02",
    status := PostStatus.reported }

/-- A concrete pending order without a tracking number. -/
def sampleOrder : Order :=
  { id := "ord-1", userId := "u1", items := [], total := 0,
    status := OrderStatus.pending, createdAt := "2024-01-03" }

/-- A concrete pending order that already carries a tracking number. -/
def trackedOrder : Order :=
  { id := "ord-2", userId := "u1", items := [], total := 0,
    status := OrderStatus.pending, trackingNumber := some "TRACK99",
    createdAt := "2024-01-04" }

/-- A concrete store populating every slice. -/
def sampleStore : Store :=
  { users := INITIAL_USERS, attractions := [sampleAttraction],
    posts := [sampleActivePost, sampleReportedPost], products := [],
    orders := [sampleOrder, trackedOrder] }

/-- Mapping a function that fixes every element of a list is the identity. -/
theorem map_ite_eq_self {α : Type} (l : List α) (c : α → Bool) (f : α → α)
    (h : ∀ a ∈ l, c a = false) : l.map (fun a => if c a then f a else a) = l := by
  induction l with
  | nil => rfl
  | cons a t ih =>
      have ha := h a (List.mem_cons_self a t)
      have ht : ∀ x ∈ t, c x = false := fun x hx => h x (List.mem_cons_of_mem a hx)
      simp [ha, ih ht]

/-- C3: for every stored post slice and every optional attractionId
argument, no post returned by `getPosts` has status `reported`, and no
post returned by `getReportedContent` has status `active`. -/
theorem getPosts_getReportedContent_status (s : Store) (attractionId : Option String) (p : Post) :
    (p ∈ ((getPosts attractionId s).1.data.getD []) → p.status ≠ PostStatus.reported) ∧
    (p ∈ ((getReportedContent s).1.data.getD []) → p.status ≠ PostStatus.active) := by
  constructor
  · intro hp
    have hact : p.status = PostStatus.active := by
      rcases attractionId with _ | aid
      · simp [getPosts] at hp
        exact hp.2
      · by_cases ha : aid = ""
        · simp [getPosts, ha] at hp
          exact hp.2
        · simp [getPosts, ha] at hp
          exact hp.2.2
    simp [hact]
  · intro hp
    have hrep : p.status = PostStatus.reported := by
      simp [getReportedContent] at hp
      exact hp.2
    simp [hrep]

/-- Evaluation of the C3 theorem on a concrete store: the active sample
post is returned by `getPosts`, the reported one by `getReportedContent`. -/
theorem getPosts_getReportedContent_status_witness :
    sampleActivePost.status ≠ PostStatus.reported ∧
    sampleReportedPost.status ≠ PostStatus.active :=
  ⟨(getPosts_getReportedContent_status sampleStore none sampleActivePost).1 (by decide),
   (getPosts_getReportedContent_status sampleStore none sampleReportedPost).2 (by decide)⟩

/-- C1 fails as stated: the duplicate-email check of `register` uses
strict string equality, so a second registration whose email differs only
in case is inserted as a second user and reports success. -/
theorem register_caseInsensitive_duplicate_cx :
    (register { email := "A@x.com" } "pw" 2
      (register { email := "a@x.com" } "pw" 1 emptyStore).2).1.success = true ∧
    (register { email := "A@x.com" } "pw" 2
      (register { email := "a@x.com" } "pw" 1 emptyStore).2).2.users.length =
      (register { email := "a@x.com" } "pw" 1 emptyStore).2.users.length + 1 := by decide

/-- C1 (amended): for every pair of register calls with exactly equal
emails, the second call returns success=false with a message and leaves
the user slice exactly as it was after the first call. -/
theorem register_duplicate_email_exact (s : Store) (d1 d2 : RegisterData)
    (pw1 pw2 : String) (n1 n2 : Nat) (hemail : d2.email = d1.email) :
    (register d2 pw2 n2 (register d1 pw1 n1 s).2).1.success = false ∧
    ((register d2 pw2 n2 (register d1 pw1 n1 s).2).1.message).isSome = true ∧
    (register d2 pw2 n2 (register d1 pw1 n1 s).2).2 = (register d1 pw1 n1 s).2 := by
  cases h : s.users.any (fun u => u.email == d1.email) with
  | true => simp [register, h, hemail]
  | false => simp [register, h, hemail, List.any_append]

/-- Evaluation of the amended C1 theorem on a concrete pair of calls. -/
theorem register_duplicate_email_exact_witness :
    (register { email := "b@x.com" } "pw" 2
      (register { email := "b@x.com" } "pw" 1 emptyStore).2).1.success = false ∧
    ((register { email := "b@x.com" } "pw" 2
      (register { email := "b@x.com" } "pw" 1 emptyStore).2).1.message).isSome = true ∧
    (register { email := "b@x.com" } "pw" 2
      (register { email := "b@x.com" } "pw" 1 emptyStore).2).2 =
      (register { email := "b@x.com" } "pw" 1 emptyStore).2 :=
  register_duplicate_email_exact emptyStore { email := "b@x.com" } { email := "b@x.com" }
    "pw" "pw" 1 2 rfl

/-- C2 fails as stated: on ids that match nothing, `deleteAttraction`,
`reportPost` and `updateUserStatus` all report success=true rather than
success=false. -/
theorem notFound_ops_report_success_cx :
    (deleteAttraction "missing" sampleStore).1.success = true ∧
    (reportPost "missing" sampleStore).1.success = true ∧
    (updateUserStatus "missing" UserStatus.rejected sampleStore).1.success = true := by decide

/-- C2 (amended): on ids that match nothing, `deleteAttraction`,
`reportPost` and `updateUserStatus` are silent no-ops: each returns
success=true with data=true and leaves the store unchanged. -/
theorem notFound_update_delete_report_noop (s : Store) (id : String) (st : UserStatus)
    (hA : ∀ a ∈ s.attractions, a.id ≠ id)
    (hP : ∀ p ∈ s.posts, p.id ≠ id)
    (hU : ∀ u ∈ s.users, u.id ≠ id) :
    deleteAttraction id s = ({ success := true, data := some true }, s) ∧
    reportPost id s = ({ success := true, data := some true }, s) ∧
    updateUserStatus id st s = ({ success := true, data := some true }, s) := by
  refine ⟨?_, ?_, ?_⟩
  · have h1 : s.attractions.filter (fun a => a.id != id) = s.attractions :=
      List.filter_eq_self.mpr (fun a ha => by simpa using hA a ha)
    simp [deleteAttraction, h1]
  · have h1 : s.posts.map
        (fun p => if p.id == id then { p with status := PostStatus.reported } else p) = s.posts := by
      have := map_ite_eq_self s.posts (fun p => p.id == id)
        (fun p => { p with status := PostStatus.reported })
        (fun p hp => by simpa using hP p hp)
      simpa using this
    simp only [reportPost]
    rw [h1]
  · have h1 : s.users.map
        (fun u => if u.id == id then { u with status := st } else u) = s.users := by
      have := map_ite_eq_self s.users (fun u => u.id == id)
        (fun u => { u with status := st })
        (fun u hu => by simpa using hU u hu)
      simpa using this
    simp only [updateUserStatus]
    rw [h1]

/-- Evaluation of the amended C2 theorem on a concrete store. -/
theorem notFound_update_delete_report_noop_witness :
    deleteAttraction "missing" sampleStore = ({ success := true, data := some true }, sampleStore) ∧
    reportPost "missing" sampleStore = ({ success := true, data := some true }, sampleStore) ∧
    updateUserStatus "missing" UserStatus.rejected sampleStore =
      ({ success := true, data := some true }, sampleStore) :=
  notFound_update_delete_report_noop sampleStore "missing" UserStatus.rejected
    (by decide) (by decide) (by decide)

/-- A registration request with role merchant. -/
def merchantReg : RegisterData := { email := "new@x.com", role := some UserRole.merchant }

/-- A registration request with role traveler. -/
def travelerReg : RegisterData := { email := "t@x.com", role := some UserRole.traveler }

/-- A registration request giving only the email. -/
def bareReg : RegisterData := { email := "alice@x.com" }

/-- The seeded traveler user. -/
def travelerUser : User :=
  { id := "u1", username := "Traveler User", email := "user@test.com",
    role := UserRole.traveler, status := UserStatus.active }

/-- C6: for every register call whose email is not already used, the
created user has status pending exactly when the requested role is
merchant and active otherwise, and the call returns success=true with
that user appended to the slice. -/
theorem register_merchant_pending_gate (s : Store) (d : RegisterData) (pw : String) (now : Nat)
    (hfresh : ∀ u ∈ s.users, u.email ≠ d.email) :
    ∃ u : User,
      (register d pw now s).1 = { success := true, data := some u } ∧
      (register d pw now s).2.users = s.users ++ [u] ∧
      u.status = (if d.role = some UserRole.merchant then UserStatus.pending
                  else UserStatus.active) := by
  have hguard : s.users.any (fun u => u.email == d.email) = false := by
    rw [List.any_eq_false]
    intro u hu
    simpa using hfresh u hu
  refine ⟨{ id := "u-" ++ toString now,
            username := jsOrString d.username (emailLocalPart d.email),
            email := d.email,
            role := d.role.getD UserRole.traveler,
            status := if d.role = some UserRole.merchant then UserStatus.pending
                      else UserStatus.active,
            qualificationUrl := d.qualificationUrl,
            token := some "mock-jwt-new" }, ?_, ?_, rfl⟩
  · simp [register, hguard]
  · simp [register, hguard]

/-- Evaluation of the C6 theorem: one merchant and one traveler
registration on the seeded store. -/
theorem register_merchant_pending_gate_witness :
    (∃ u : User,
      (register merchantReg "pw" 7 sampleStore).1 = { success := true, data := some u } ∧
      (register merchantReg "pw" 7 sampleStore).2.users = sampleStore.users ++ [u] ∧
      u.status = (if merchantReg.role = some UserRole.merchant then UserStatus.pending
                  else UserStatus.active)) ∧
    (∃ u : User,
      (register travelerReg "pw" 8 sampleStore).1 = { success := true, data := some u } ∧
      (register travelerReg "pw" 8 sampleStore).2.users = sampleStore.users ++ [u] ∧
      u.status = (if travelerReg.role = some UserRole.merchant then UserStatus.pending
                  else UserStatus.active)) :=
  ⟨register_merchant_pending_gate sampleStore merchantReg "pw" 7 (by decide),
   register_merchant_pending_gate sampleStore travelerReg "pw" 8 (by decide)⟩

/-- C10: for every register call with a fresh email, an absent username
defaults to the part of the email before the first at sign, an absent role
defaults to traveler, and the token of the created user is always the
constant mock-jwt-new. -/
theorem register_field_defaults (s : Store) (d : RegisterData) (pw : String) (now : Nat)
    (hfresh : ∀ u ∈ s.users, u.email ≠ d.email) :
    ∃ u : User,
      (register d pw now s).1.data = some u ∧
      (d.username = none → u.username = emailLocalPart d.email) ∧
      (d.role = none → u.role = UserRole.traveler) ∧
      u.token = some "mock-jwt-new" := by
  have hguard : s.users.any (fun u => u.email == d.email) = false := by
    rw [List.any_eq_false]
    intro u hu
    simpa using hfresh u hu
  refine ⟨{ id := "u-" ++ toString now,
            username := jsOrString d.username (emailLocalPart d.email),
            email := d.email,
            role := d.role.getD UserRole.traveler,
            status := if d.role = some UserRole.merchant then UserStatus.pending
                      else UserStatus.active,
            qualificationUrl := d.qualificationUrl,
            token := some "mock-jwt-new" }, ?_, ?_, ?_, rfl⟩
  · simp [register, hguard]
  · intro h
    simp [h, jsOrString]
  · intro h
    simp [h]

/-- Evaluation of the C10 theorem on a registration giving only an
email. -/
theorem register_field_defaults_witness :
    ∃ u : User,
      (register bareReg "pw" 9 sampleStore).1.data = some u ∧
      (bareReg.username = none → u.username = emailLocalPart bareReg.email) ∧
      (bareReg.role = none → u.role = UserRole.traveler) ∧
      u.token = some "mock-jwt-new" :=
  register_field_defaults sampleStore bareReg "pw" 9 (by decide)

/-- C9: login returns the first user whose email matches the argument
case-insensitively (with a token derived from the id) and fails with a
message otherwise; the password argument never affects the result and no
slice is modified. -/
theorem login_contract (s : Store) (email pw : String) :
    (login email pw s).2 = s ∧
    (∀ pw', login email pw' s = login email pw s) ∧
    ((login email pw s).1.success = true ↔
      ∃ u ∈ s.users, jsToLower u.email = jsToLower email) ∧
    (∀ u, s.users.find? (fun v => jsToLower v.email == jsToLower email) = some u →
      (login email pw s).1.data = some { u with token := some ("mock-jwt-" ++ u.id) }) ∧
    (s.users.find? (fun v => jsToLower v.email == jsToLower email) = none →
      ((login email pw s).1.message).isSome = true) := by
  cases h : s.users.find? (fun v => jsToLower v.email == jsToLower email) with
  | none =>
      refine ⟨?_, ?_, ?_, ?_, ?_⟩
      · simp [login, h]
      · intro pw'
        simp [login, h]
      · simp [login, h]
        rw [List.find?_eq_none] at h
        rintro u hu heq
        exact absurd heq (by simpa using h u hu)
      · intro u hu
        simp at hu
      · intro _
        simp [login, h]
  | some u0 =>
      have hmem : u0 ∈ s.users := List.mem_of_find?_eq_some h
      have hpred : jsToLower u0.email = jsToLower email := by
        have := List.find?_some h
        simpa using this
      refine ⟨?_, ?_, ?_, ?_, ?_⟩
      · simp [login, h]
      · intro pw'
        simp [login, h]
      · simp [login, h]
        exact ⟨u0, hmem, hpred⟩
      · intro u hu
        injection hu with hu'
        subst hu'
        simp [login, h]
      · intro hnone
        simp at hnone

/-- Evaluation of the C9 theorem: a login with an uppercased variant of a
seeded email finds the seeded traveler. -/
theorem login_contract_witness :
    (login "USER@test.com" "pw" sampleStore).1.data =
      some { travelerUser with token := some ("mock-jwt-" ++ travelerUser.id) } ∧
    (login "USER@test.com" "pw" sampleStore).1.success = true :=
  ⟨(login_contract sampleStore "USER@test.com" "pw").2.2.2.1 travelerUser (by decide),
   (login_contract sampleStore "USER@test.com" "pw").2.2.1.mpr
     ⟨travelerUser, by decide, by decide⟩⟩

/-- A create-attraction input whose imageUrl is the empty string. -/
def c4Input : CreateAttractionData :=
  { title := "T", description := "D", address := "A", province := "P", city := "C",
    county := "K", imageUrl := some "" }

/-- C4 fails as stated: an imageUrl given as the empty string is replaced
by the placeholder (JS `||` treats the empty string as absent), so the
stored record is not equal to the input fields plus defaults-on-absent. -/
theorem createAttraction_emptyImageUrl_cx :
    c4Input.imageUrl = some "" ∧
    Option.map Attraction.imageUrl (createAttraction c4Input 5 emptyStore).1.data =
      some "https://picsum.photos/800/600?random=99" ∧
    Option.map Attraction.imageUrl (createAttraction c4Input 5 emptyStore).1.data ≠
      some "" := by decide

/-- C4 (amended): createAttraction returns success=true with a record
equal to the input fields plus the generated id and defaults (region is
province, a space, then city; tags and gallery default to empty lists;
imageUrl defaults to a placeholder when absent or empty), and
getAttractionById with the id of that record returns success=true with
the same record, leaving the store as createAttraction left it. -/
theorem createAttraction_getById_roundtrip (s : Store) (d : CreateAttractionData) (now : Nat) :
    ∃ rec : Attraction,
      (createAttraction d now s).1 = { success := true, data := some rec } ∧
      rec = { id := "attr-" ++ toString now, title := d.title, description := d.description,
              address := d.address, region := d.province ++ " " ++ d.city,
              province := some d.province, city := some d.city, county := some d.county,
              tags := d.tags.getD [],
              imageUrl := jsOrString d.imageUrl "https://picsum.photos/800/600?random=99",
              gallery := some (d.gallery.getD []),
              openHours := d.openHours, drivingTips := d.drivingTips } ∧
      getAttractionById rec.id (createAttraction d now s).2 =
        ({ success := true, data := some rec }, (createAttraction d now s).2) := by
  refine ⟨_, rfl, rfl, ?_⟩
  simp [getAttractionById, createAttraction]

/-- A product creation request linked to the sample attraction. -/
def c8Product : CreateProductData :=
  { merchantId := "m1", attractionId := some "a1", name := "Plush Panda",
    description := "Toy", price := 25, stock := 100 }

/-- An attraction patch that retitles the attraction. -/
def c8Update : AttractionUpdate := { title := some "New Title" }

/-- C8: creating a product linked to an existing attraction snapshots the
attraction title into the product, and a later updateAttraction (with any
patch, in particular a new title) leaves the product slice - hence the
stored attractionName - unchanged. -/
theorem createProduct_snapshot_updateAttraction_frame (s : Store) (pd : CreateProductData)
    (aid : String) (now : Nat) (X : Attraction)
    (hpd : pd.attractionId = some aid) (haid : aid ≠ "")
    (hfind : s.attractions.find? (fun a => a.id == aid) = some X)
    (upd : AttractionUpdate) :
    ∃ prod : Product,
      (createProduct pd now s).1.data = some prod ∧
      prod.attractionName = some X.title ∧
      (createProduct pd now s).2.products = s.products ++ [prod] ∧
      (updateAttraction aid upd (createProduct pd now s).2).2.products =
        (createProduct pd now s).2.products := by
  refine ⟨{ id := "prod-" ++ toString now, merchantId := pd.merchantId,
            merchantName := jsOrString pd.merchantName "My Store",
            attractionId := pd.attractionId,
            attractionName := some X.title,
            name := pd.name, description := pd.description,
            price := pd.price, stock := pd.stock,
            imageUrl := jsOrString pd.imageUrl
              ("https://picsum.photos/400/400?random=" ++ toString now) },
          ?_, rfl, ?_, ?_⟩
  · simp [createProduct, hpd, haid, hfind]
  · simp [createProduct, hpd, haid, hfind]
  · rcases h2 : updateAttractionList aid upd (createProduct pd now s).2.attractions with ⟨r, l⟩
    cases r with
    | none => simp [updateAttraction, h2]
    | some ua => simp [updateAttraction, h2]

/-- Evaluation of the C8 theorem: a product linked to the sample
attraction keeps its snapshotted title across a retitling update. -/
theorem createProduct_snapshot_updateAttraction_frame_witness :
    ∃ prod : Product,
      (createProduct c8Product 11 sampleStore).1.data = some prod ∧
      prod.attractionName = some sampleAttraction.title ∧
      (createProduct c8Product 11 sampleStore).2.products =
        sampleStore.products ++ [prod] ∧
      (updateAttraction "a1" c8Update (createProduct c8Product 11 sampleStore).2).2.products =
        (createProduct c8Product 11 sampleStore).2.products :=
  createProduct_snapshot_updateAttraction_frame sampleStore c8Product "a1" 11 sampleAttraction
    rfl (by decide) (by decide) c8Update

/-- Mapping a function that fixes every element (Prop-condition form). -/
theorem map_if_eq_self {α : Type} (l : List α) (q : α → Prop) [DecidablePred q] (f : α → α)
    (h : ∀ a ∈ l, ¬ q a) : l.map (fun a => if q a then f a else a) = l := by
  induction l with
  | nil => rfl
  | cons a t ih =>
      have ha := h a (List.mem_cons_self a t)
      have ht : ∀ x ∈ t, ¬ q x := fun x hx => h x (List.mem_cons_of_mem a hx)
      simp [ha, ih ht]

/-- On a slice without the id, the updateOrderStatus loop finds nothing
and rewrites the slice unchanged. -/
theorem updateOrderList_no_match (oid : String) (st : OrderStatus) (tr : Option String) :
    ∀ l : List Order, (∀ o ∈ l, o.id ≠ oid) → updateOrderList oid st tr l = (none, l) := by
  intro l
  induction l with
  | nil => intro _; rfl
  | cons o rest ih =>
      intro h
      have ho : (o.id == oid) = false := by
        simpa using h o (List.mem_cons_self o rest)
      have hr := ih (fun x hx => h x (List.mem_cons_of_mem o hx))
      simp [updateOrderList, ho, hr]

/-- On a slice whose only order with the id is `orig`, the
updateOrderStatus loop captures the patched `orig` and patches exactly
the matching positions. -/
theorem updateOrderList_unique_match (oid : String) (st : OrderStatus) (tr : Option String)
    (orig : Order) :
    ∀ l : List Order, orig ∈ l → orig.id = oid → (∀ o ∈ l, o.id = oid → o = orig) →
      updateOrderList oid st tr l =
        (some (applyOrderUpdate st tr orig),
         l.map (fun o => if o.id = oid then applyOrderUpdate st tr o else o)) := by
  intro l
  induction l with
  | nil =>
      intro hmem _ _
      simp at hmem
  | cons o rest ih =>
      intro hmem horig huniq
      by_cases ho : o.id = oid
      · have hoeq : o = orig := huniq o (List.mem_cons_self o rest) ho
        subst hoeq
        by_cases hrest : ∀ x ∈ rest, x.id ≠ oid
        · have hnm := updateOrderList_no_match oid st tr rest hrest
          have hmap : rest.map (fun x => if x.id = oid then applyOrderUpdate st tr x else x)
              = rest :=
            map_if_eq_self rest (fun x => x.id = oid) (applyOrderUpdate st tr) hrest
          simp [updateOrderList, ho, hnm, hmap]
        · push_neg at hrest
          obtain ⟨x, hx, hxid⟩ := hrest
          have hxo : x = o := huniq x (List.mem_cons_of_mem o hx) hxid
          have homem : o ∈ rest := hxo ▸ hx
          have hrec := ih homem horig (fun y hy hyid => huniq y (List.mem_cons_of_mem o hy) hyid)
          simp [updateOrderList, ho, hrec]
      · have homem : orig ∈ rest := by
          rcases List.mem_cons.mp hmem with h1 | h1
          · exact absurd (h1 ▸ horig) ho
          · exact h1
        have hrec := ih homem horig (fun y hy hyid => huniq y (List.mem_cons_of_mem o hy) hyid)
        have hob : (o.id == oid) = false := by simpa using ho
        simp [updateOrderList, hob, ho, hrec]

/-- C5 (amended): when the slice contains exactly one order with the
given id, updateOrderStatus returns success=true with the patched order:
its status is the status argument; its trackingNumber is the tracking
argument when a non-empty one is given and the previous trackingNumber
when the argument is absent or empty; every other field of the order is
unchanged, and every order with a different id is left untouched. -/
theorem updateOrderStatus_existing (s : Store) (oid : String) (st : OrderStatus)
    (tr : Option String) (orig : Order)
    (hmem : orig ∈ s.orders) (hid : orig.id = oid)
    (huniq : ∀ o ∈ s.orders, o.id = oid → o = orig) :
    (updateOrderStatus oid st tr s).1 =
      { success := true, data := some (applyOrderUpdate st tr orig) } ∧
    (updateOrderStatus oid st tr s).2.orders =
      s.orders.map (fun o => if o.id = oid then applyOrderUpdate st tr o else o) ∧
    (applyOrderUpdate st tr orig).status = st ∧
    (∀ t, tr = some t → t ≠ "" →
      (applyOrderUpdate st tr orig).trackingNumber = some t) ∧
    (tr = none → (applyOrderUpdate st tr orig).trackingNumber = orig.trackingNumber) ∧
    (tr = some "" → (applyOrderUpdate st tr orig).trackingNumber = orig.trackingNumber) ∧
    (applyOrderUpdate st tr orig).id = orig.id ∧
    (applyOrderUpdate st tr orig).userId = orig.userId ∧
    (applyOrderUpdate st tr orig).items = orig.items ∧
    (applyOrderUpdate st tr orig).total = orig.total ∧
    (applyOrderUpdate st tr orig).createdAt = orig.createdAt := by
  have hl := updateOrderList_unique_match oid st tr orig s.orders hmem hid huniq
  refine ⟨?_, ?_, rfl, ?_, ?_, ?_, rfl, rfl, rfl, rfl, rfl⟩
  · simp [updateOrderStatus, hl]
  · simp [updateOrderStatus, hl]
  · intro t ht hne
    simp [applyOrderUpdate, jsOrOpt, ht, hne]
  · intro ht
    simp [applyOrderUpdate, jsOrOpt, ht]
  · intro ht
    simp [applyOrderUpdate, jsOrOpt, ht]

/-- Evaluation of the amended C5 theorem: shipping the sample pending
order with tracking number TRACK99. -/
theorem updateOrderStatus_existing_witness :
    (updateOrderStatus "ord-1" OrderStatus.shipped (some "TRACK99") sampleStore).1 =
      { success := true,
        data := some (applyOrderUpdate OrderStatus.shipped (some "TRACK99") sampleOrder) } ∧
    (updateOrderStatus "ord-1" OrderStatus.shipped (some "TRACK99") sampleStore).2.orders =
      sampleStore.orders.map
        (fun o => if o.id = "ord-1"
          then applyOrderUpdate OrderStatus.shipped (some "TRACK99") o else o) ∧
    (applyOrderUpdate OrderStatus.shipped (some "TRACK99") sampleOrder).status =
      OrderStatus.shipped ∧
    (∀ t, (some "TRACK99" : Option String) = some t → t ≠ "" →
      (applyOrderUpdate OrderStatus.shipped (some "TRACK99") sampleOrder).trackingNumber =
        some t) ∧
    ((some "TRACK99" : Option String) = none →
      (applyOrderUpdate OrderStatus.shipped (some "TRACK99") sampleOrder).trackingNumber =
        sampleOrder.trackingNumber) ∧
    ((some "TRACK99" : Option String) = some "" →
      (applyOrderUpdate OrderStatus.shipped (some "TRACK99") sampleOrder).trackingNumber =
        sampleOrder.trackingNumber) ∧
    (applyOrderUpdate OrderStatus.shipped (some "TRACK99") sampleOrder).id = sampleOrder.id ∧
    (applyOrderUpdate OrderStatus.shipped (some "TRACK99") sampleOrder).userId =
      sampleOrder.userId ∧
    (applyOrderUpdate OrderStatus.shipped (some "TRACK99") sampleOrder).items =
      sampleOrder.items ∧
    (applyOrderUpdate OrderStatus.shipped (some "TRACK99") sampleOrder).total =
      sampleOrder.total ∧
    (applyOrderUpdate OrderStatus.shipped (some "TRACK99") sampleOrder).createdAt =
      sampleOrder.createdAt :=
  updateOrderStatus_existing sampleStore "ord-1" OrderStatus.shipped (some "TRACK99")
    sampleOrder (by decide) (by decide) (by decide)

/-- C5 fails as stated: a tracking argument given as the empty string is
not stored; the previous tracking number is retained (JS `||` treats the
empty string as absent). -/
theorem updateOrderStatus_emptyTracking_cx :
    Option.map Order.trackingNumber
      (updateOrderStatus "ord-2" OrderStatus.shipped (some "") sampleStore).1.data =
      some (some "TRACK99") ∧
    (some "TRACK99" : Option String) ≠ some "" := by decide

/-- Lowercasing the empty string gives the empty string. -/
theorem jsToLower_empty : jsToLower "" = "" := rfl

/-- The empty string is a substring of every string. -/
theorem jsIncludes_empty (s : String) : jsIncludes s "" = true := by
  unfold jsIncludes charsContains
  simp [charsPrefixOf]

/-- A filter step whose optional string is absent or non-empty equals an
unconditional filter by the guarded predicate. -/
theorem jsFilterIf_eq_filter (v : Option String) (pred : String → Attraction → Bool)
    (d : List Attraction) (hv : v ≠ some "") :
    jsFilterIf v pred d =
      d.filter (fun a => match v with | some x => pred x a | none => true) := by
  cases v with
  | none => simp [jsFilterIf]
  | some x =>
      have hx : ¬(x = "") := by simpa using hv
      simp [jsFilterIf, hx]

/-- The query step equals an unconditional filter even for an empty
query, because the empty string is a substring of every title. -/
theorem jsFilterIf_query_eq_filter (v : Option String) (d : List Attraction) :
    jsFilterIf v (fun q a => jsIncludes (jsToLower a.title) (jsToLower q)
        || jsIncludes (jsToLower a.description) (jsToLower q)) d =
      d.filter (fun a => match v with
        | some q => jsIncludes (jsToLower a.title) (jsToLower q)
            || jsIncludes (jsToLower a.description) (jsToLower q)
        | none => true) := by
  cases v with
  | none => simp [jsFilterIf]
  | some q =>
      by_cases hq : q = ""
      · subst hq
        simp [jsFilterIf, jsToLower_empty, jsIncludes_empty]
      · simp [jsFilterIf, hq]

/-- Reordering a five-fold Boolean conjunction. -/
theorem bool_and5_comm (b1 b2 b3 b4 b5 : Bool) :
    ((((b5 && b4) && b3) && b2) && b1) = ((((b1 && b2) && b3) && b4) && b5) := by
  cases b1 <;> cases b2 <;> cases b3 <;> cases b4 <;> cases b5 <;> rfl

/-- C7 (amended): for filters whose given province/city/county/tag values
are non-empty strings (the source skips a filter given as the empty
string), getAttractions returns success=true with exactly the attractions
satisfying the conjunction of all given filters - exact equality for
province/city/county, tag membership, case-insensitive substring of title
or description for the query - and leaves the store unchanged. -/
theorem getAttractions_conjunction (s : Store) (f : AttractionFilters)
    (hprov : f.province ≠ some "") (hcity : f.city ≠ some "")
    (hcounty : f.county ≠ some "") (htag : f.tag ≠ some "") :
    (getAttractions f s).1.success = true ∧
    (getAttractions f s).1.data =
      some (s.attractions.filter (attractionMatchesSpec f)) ∧
    (getAttractions f s).2 = s := by
  refine ⟨rfl, ?_, rfl⟩
  simp only [getAttractions]
  rw [jsFilterIf_eq_filter _ _ _ hprov, jsFilterIf_eq_filter _ _ _ hcity,
      jsFilterIf_eq_filter _ _ _ hcounty, jsFilterIf_eq_filter _ _ _ htag,
      jsFilterIf_query_eq_filter]
  rw [List.filter_filter, List.filter_filter, List.filter_filter, List.filter_filter]
  congr 1
  apply List.filter_congr
  intro a _
  simp only [attractionMatchesSpec]
  exact bool_and5_comm _ _ _ _ _

/-- Filters combining a province, a tag and a query. -/
def c7Filters : AttractionFilters :=
  { province := some "SC", query := some "panda", tag := some "Nature" }

/-- Evaluation of the amended C7 theorem on the sample store. -/
theorem getAttractions_conjunction_witness :
    (getAttractions c7Filters sampleStore).1.success = true ∧
    (getAttractions c7Filters sampleStore).1.data =
      some (sampleStore.attractions.filter (attractionMatchesSpec c7Filters)) ∧
    (getAttractions c7Filters sampleStore).2 = sampleStore :=
  getAttractions_conjunction sampleStore c7Filters (by decide) (by decide)
    (by decide) (by decide)

/-- C7 fails as stated: a province filter given as the empty string is
skipped by the source (JS truthiness), so the result keeps an attraction
that does not satisfy exact equality of province with the empty string. -/
theorem getAttractions_emptyProvince_cx :
    (getAttractions { province := some "" } sampleStore).1.data = some [sampleAttraction] ∧
    attractionMatchesSpec { province := some "" } sampleAttraction = false := by decide

end WanderMart
